import Mathlib

/-!
Verification of `update_sponsors.py` (Afdian sponsor synchronisation script).

Text is modelled as `List Char`.  Python's `str.split(sep)` indexing,
truthiness (`x or y`), `str.rstrip()` / `str.strip()`, dict insertion and
lookup, `sorted(key=..., reverse=True)`, and the marker-region rewrite of
`ReadmeUpdater` are all given explicit executable counterparts below,
translated from the source.
-/

namespace Sponsor

/-- Text of the program, modelled byte-for-byte as a list of characters. -/
abbrev Str := List Char

/-- Convert a Lean string literal into the `Str` model. -/
def str (s : String) : Str := s.toList

namespace Config

/-- `Config.MARKER_START` from the source. -/
def MARKER_START : Str := str "<!-- AFDIAN_SPONSORS_START -->"

/-- `Config.MARKER_END` from the source. -/
def MARKER_END : Str := str "<!-- AFDIAN_SPONSORS_END -->"

/-- `Config.MAX_PAGES = 2000`. -/
def MAX_PAGES : Nat := 2000

/-- `Config.MAX_RETRIES = 3`. -/
def MAX_RETRIES : Nat := 3

/-- `Config.BACKOFF_BASE = 0.8`, as an exact rational. -/
def BACKOFF_BASE : ℚ := 8 / 10

/-- `Config.PAGE_SIZE = 50`. -/
def PAGE_SIZE : Nat := 50

/-- `Config.AVATAR_SIZE = 50`. -/
def AVATAR_SIZE : Nat := 50

end Config

/-- Split a text at the first occurrence of `pat`: returns the part before the
first occurrence together with `some` of the part after it, or `(text, none)`
when `pat` does not occur.  This is the primitive underlying Python's
`text.split(pat)` indexing and the `in` operator used by the source. -/
def splitFirst : Str → Str → Str × Option Str
  | [], _ => ([], none)
  | c :: rest, pat =>
    if pat.isPrefixOf (c :: rest) then
      ([], some (List.drop pat.length (c :: rest)))
    else
      (c :: (splitFirst rest pat).1, (splitFirst rest pat).2)

/-- Python `pat in text` (substring containment), as used on marker strings. -/
def pyContains (text pat : Str) : Bool := (splitFirst text pat).2.isSome

/-- Python `text.split(pat)[0]`: the part before the first occurrence of
`pat` (the whole text when `pat` is absent). -/
def beforeFirst (text pat : Str) : Str := (splitFirst text pat).1

/-- Python `text.split(pat)[1]`: the part between the first and second
occurrence of `pat`, or everything after the sole occurrence.  (The `[]`
branch models the out-of-range case, which the source guards against by
checking that `pat` occurs.) -/
def pySplitGet1 (text pat : Str) : Str :=
  match (splitFirst text pat).2 with
  | none => []
  | some r => (splitFirst r pat).1

/-- Whitespace characters stripped by Python's `str.strip()` family. -/
def isPySpace (c : Char) : Bool :=
  c = ' ' || c = '\t' || c = '\n' || c = '\r' || c = '\x0b' || c = '\x0c'

/-- Python `text.rstrip()`. -/
def pyRstrip (t : Str) : Str := (t.reverse.dropWhile isPySpace).reverse

/-- Python `text.strip()`. -/
def pyStrip (t : Str) : Str := (pyRstrip t).dropWhile isPySpace

/-- The block `f"{MARKER_START}\n{content}\n{MARKER_END}"` written by
`ReadmeUpdater._replace_content` (and, with a trailing newline, by the other
two paths). -/
def newBlock (content : Str) : Str :=
  Config.MARKER_START ++ str "\n" ++ content ++ str "\n" ++ Config.MARKER_END

/-- `ReadmeUpdater._create_new_file`: content of the file created when the
target does not exist. -/
def create_new_file (content : Str) : Str := newBlock content ++ str "\n"

/-- `ReadmeUpdater._append_markers`: content written when the file exists but
does not contain both markers. -/
def append_markers (text content : Str) : Str :=
  pyRstrip text ++ str "\n\n" ++ newBlock content ++ str "\n"

/-- `ReadmeUpdater._replace_content`: content written when both markers are
present: `text.split(MARKER_START)[0] + block + text.split(MARKER_END)[1]`. -/
def replace_content (text content : Str) : Str :=
  beforeFirst text Config.MARKER_START ++ newBlock content ++
    pySplitGet1 text Config.MARKER_END

namespace ReadmeUpdater

/-- `ReadmeUpdater.update`: the new content of the target file, as a function
of its previous state (`none` = file does not exist). -/
def update (file : Option Str) (content : Str) : Str :=
  match file with
  | none => create_new_file content
  | some text =>
    if pyContains text Config.MARKER_START && pyContains text Config.MARKER_END then
      replace_content text content
    else
      append_markers text content

end ReadmeUpdater

/-! ### Lemmas about `splitFirst` -/

theorem splitFirst_prepend_pat (pat R : Str) (hp : pat ≠ []) :
    splitFirst (pat ++ R) pat = ([], some R) := by
  match pat, hp with
  | p :: ps, _ =>
    have hpre : (p :: ps).isPrefixOf ((p :: ps) ++ R) = true :=
      List.isPrefixOf_iff_prefix.mpr (List.prefix_append _ _)
    have hne : (p :: ps) ++ R = p :: (ps ++ R) := rfl
    rw [hne]
    rw [splitFirst]
    rw [← hne, if_pos hpre]
    simp

theorem isPrefixOf_append_eq_false (pat X R : Str) (hlen : pat.length ≤ X.length)
    (h : pat.isPrefixOf X = false) : pat.isPrefixOf (X ++ R) = false := by
  cases hb : pat.isPrefixOf (X ++ R) with
  | false => rfl
  | true =>
    exfalso
    have hpre : pat <+: X ++ R := List.isPrefixOf_iff_prefix.mp hb
    have heq : pat = (X ++ R).take pat.length := List.prefix_iff_eq_take.mp hpre
    have htake : (X ++ R).take pat.length = X.take pat.length := by
      rw [List.take_append_eq_append_take]
      have hz : pat.length - X.length = 0 := Nat.sub_eq_zero_of_le hlen
      rw [hz]
      simp
    have hpreX : pat <+: X := by
      rw [List.prefix_iff_eq_take, ← htake, ← heq]
    have htrue : pat.isPrefixOf X = true := List.isPrefixOf_iff_prefix.mpr hpreX
    rw [htrue] at h
    exact Bool.noConfusion h

/-- If the first occurrence of `pat` in `B ++ pat` is the appended one, then
appending any further text `R` keeps that first occurrence in place. -/
theorem splitFirst_append_of_first (pat : Str) (hp : pat ≠ []) :
    ∀ B R : Str, splitFirst (B ++ pat) pat = (B, some []) →
      splitFirst (B ++ pat ++ R) pat = (B, some R) := by
  intro B
  induction B with
  | nil =>
    intro R _
    simpa using splitFirst_prepend_pat pat R hp
  | cons c B' ih =>
    intro R h
    have hcons : (c :: B') ++ pat = c :: (B' ++ pat) := rfl
    rw [hcons, splitFirst] at h
    by_cases hpre : pat.isPrefixOf (c :: (B' ++ pat)) = true
    · rw [if_pos hpre] at h
      have : ([] : Str) = c :: B' := congrArg Prod.fst h
      exact absurd this.symm (List.cons_ne_nil c B')
    · have hpre' : pat.isPrefixOf (c :: (B' ++ pat)) = false :=
        Bool.eq_false_iff.mpr hpre
      rw [if_neg hpre] at h
      have h1 : (splitFirst (B' ++ pat) pat).1 = B' := by
        have := congrArg Prod.fst h
        simpa using this
      have h2 : (splitFirst (B' ++ pat) pat).2 = some [] := by
        have := congrArg Prod.snd h
        simpa using this
      have hprev : splitFirst (B' ++ pat) pat = (B', some []) := by
        rw [Prod.ext_iff]; exact ⟨h1, h2⟩
      have hrec := ih R hprev
      have hlen : pat.length ≤ (c :: (B' ++ pat)).length := by
        simp [List.length_cons, List.length_append]
        omega
      have hpre2 : pat.isPrefixOf ((c :: (B' ++ pat)) ++ R) = false :=
        isPrefixOf_append_eq_false pat _ R hlen hpre'
      have hpre3 : pat.isPrefixOf (c :: (B' ++ (pat ++ R))) = false := by
        have hassoc : (c :: (B' ++ pat)) ++ R = c :: (B' ++ (pat ++ R)) := by simp
        rwa [hassoc] at hpre2
      have hrec' : splitFirst (B' ++ (pat ++ R)) pat = (B', some R) := by
        rw [← List.append_assoc]
        exact hrec
      have hcons2 : (c :: B') ++ pat ++ R = c :: (B' ++ (pat ++ R)) := by simp
      rw [hcons2, splitFirst]
      rw [if_neg (by rw [hpre3]; exact fun hf => Bool.noConfusion hf)]
      rw [hrec']

theorem marker_start_ne_nil : Config.MARKER_START ≠ [] := by decide

theorem marker_end_ne_nil : Config.MARKER_END ≠ [] := by decide

/-- Master lemma for the replace path of `ReadmeUpdater.update`: on a text
decomposed as `B ++ MARKER_START ++ Mid ++ MARKER_END ++ A`, where the
displayed marker occurrences are the first ones and no further end marker
occurs in `A`, the update rewrites exactly the delimited region. -/
theorem update_marked_text (B Mid A content : Str)
    (hS : splitFirst (B ++ Config.MARKER_START) Config.MARKER_START = (B, some []))
    (hE : splitFirst ((B ++ Config.MARKER_START ++ Mid) ++ Config.MARKER_END)
        Config.MARKER_END = (B ++ Config.MARKER_START ++ Mid, some []))
    (hA : splitFirst A Config.MARKER_END = (A, none)) :
    ReadmeUpdater.update
        (some (B ++ Config.MARKER_START ++ Mid ++ Config.MARKER_END ++ A)) content
      = B ++ newBlock content ++ A := by
  set t := B ++ Config.MARKER_START ++ Mid ++ Config.MARKER_END ++ A with ht
  have eqS : splitFirst t Config.MARKER_START
      = (B, some (Mid ++ Config.MARKER_END ++ A)) := by
    have := splitFirst_append_of_first Config.MARKER_START marker_start_ne_nil B
      (Mid ++ Config.MARKER_END ++ A) hS
    have hshape : B ++ Config.MARKER_START ++ (Mid ++ Config.MARKER_END ++ A) = t := by
      rw [ht]; simp
    rw [hshape] at this
    exact this
  have eqE : splitFirst t Config.MARKER_END
      = (B ++ Config.MARKER_START ++ Mid, some A) := by
    have := splitFirst_append_of_first Config.MARKER_END marker_end_ne_nil
      (B ++ Config.MARKER_START ++ Mid) A hE
    have hshape : B ++ Config.MARKER_START ++ Mid ++ Config.MARKER_END ++ A = t := by
      rw [ht]
    rw [hshape] at this
    exact this
  have hcS : pyContains t Config.MARKER_START = true := by
    rw [pyContains, eqS]; rfl
  have hcE : pyContains t Config.MARKER_END = true := by
    rw [pyContains, eqE]; rfl
  have hbefore : beforeFirst t Config.MARKER_START = B := by
    rw [beforeFirst, eqS]
  have hafter : pySplitGet1 t Config.MARKER_END = A := by
    rw [pySplitGet1, eqE]
    simp only []
    rw [hA]
  have hupd : ReadmeUpdater.update (some t) content = replace_content t content := by
    simp only [ReadmeUpdater.update]
    rw [if_pos (by rw [hcS, hcE]; rfl)]
  rw [hupd, replace_content, hbefore, hafter]

/-- Everything after the first occurrence of the end marker in a text
(the text's tail the spec calls "content after the end marker"). -/
def afterFirstEnd (t : Str) : Str :=
  match (splitFirst t Config.MARKER_END).2 with
  | some r => r
  | none => []

/-- Claim C1, counterexample: a target file that contains both markers but
whose text after the first end marker contains a second end marker.  The
update drops that second marker, so the content after the end marker is not
byte-identical before and after the update: the claim fails for arbitrary
surrounding text. -/
theorem C1_counterexample :
    pyContains (Config.MARKER_START ++ str "\n" ++ Config.MARKER_END ++ str "tail"
        ++ Config.MARKER_END) Config.MARKER_START = true ∧
    pyContains (Config.MARKER_START ++ str "\n" ++ Config.MARKER_END ++ str "tail"
        ++ Config.MARKER_END) Config.MARKER_END = true ∧
    afterFirstEnd (ReadmeUpdater.update
        (some (Config.MARKER_START ++ str "\n" ++ Config.MARKER_END ++ str "tail"
          ++ Config.MARKER_END)) (str "new"))
      ≠ afterFirstEnd (Config.MARKER_START ++ str "\n" ++ Config.MARKER_END
          ++ str "tail" ++ Config.MARKER_END) := by
  decide

/-- Claim C1 (amended): for an existing target file containing both markers,
decomposed as `B ++ MARKER_START ++ M ++ MARKER_END ++ A` where the shown
start-marker occurrence is the first start marker, the shown end-marker
occurrence is the first end marker, and no further end marker occurs in `A`,
`ReadmeUpdater.update` produces exactly `B ++ newBlock content ++ A`: the
content `B` before the start marker and the content `A` after the end marker
are byte-identical before and after the update. -/
theorem C1_marker_preservation (B M A content : Str)
    (hS : splitFirst (B ++ Config.MARKER_START) Config.MARKER_START = (B, some []))
    (hE : splitFirst ((B ++ Config.MARKER_START ++ M) ++ Config.MARKER_END)
        Config.MARKER_END = (B ++ Config.MARKER_START ++ M, some []))
    (hA : splitFirst A Config.MARKER_END = (A, none)) :
    ReadmeUpdater.update
        (some (B ++ Config.MARKER_START ++ M ++ Config.MARKER_END ++ A)) content
      = B ++ newBlock content ++ A :=
  update_marked_text B M A content hS hE hA

/-- Witness for C1 at a concrete file `"before\n" ++ markers ++ "\nafter"`. -/
theorem C1_marker_preservation_witness :
    ReadmeUpdater.update
        (some (str "before\n" ++ Config.MARKER_START ++ str "\nold\n"
          ++ Config.MARKER_END ++ str "\nafter")) (str "new")
      = str "before\n" ++ newBlock (str "new") ++ str "\nafter" :=
  C1_marker_preservation (str "before\n") (str "\nold\n") (str "\nafter") (str "new")
    (by decide) (by decide) (by decide)

/-- Claim C2, counterexample: updating twice with a content string that itself
contains the end marker is not idempotent.  Starting from a missing file with
content `"a" ++ MARKER_END ++ "b"`, the second update cuts the file at the end
marker embedded in the content and yields a different file. -/
theorem C2_counterexample :
    ReadmeUpdater.update
        (some (ReadmeUpdater.update none (str "a" ++ Config.MARKER_END ++ str "b")))
        (str "a" ++ Config.MARKER_END ++ str "b")
      ≠ ReadmeUpdater.update none (str "a" ++ Config.MARKER_END ++ str "b") := by
  decide

/-- Claim C2 (amended): `ReadmeUpdater.update` is idempotent for every initial
target-file state (missing file, markers absent, or markers present) and every
content string such that in the file produced by the first update — which
always has the shape `P ++ newBlock content ++ Q` — the block's start marker
is the file's first start marker, the block's closing end marker is the file's
first end marker (in particular the content contains no end marker), and no
end marker occurs after the block. -/
theorem C2_update_idempotent (file : Option Str) (content P Q : Str)
    (hdecomp : ReadmeUpdater.update file content = P ++ newBlock content ++ Q)
    (hS : splitFirst (P ++ Config.MARKER_START) Config.MARKER_START = (P, some []))
    (hE : splitFirst ((P ++ Config.MARKER_START ++ (str "\n" ++ content ++ str "\n"))
        ++ Config.MARKER_END) Config.MARKER_END
      = (P ++ Config.MARKER_START ++ (str "\n" ++ content ++ str "\n"), some []))
    (hQ : splitFirst Q Config.MARKER_END = (Q, none)) :
    ReadmeUpdater.update (some (ReadmeUpdater.update file content)) content
      = ReadmeUpdater.update file content := by
  rw [hdecomp]
  have h := update_marked_text P (str "\n" ++ content ++ str "\n") Q content hS hE hQ
  have hshape : P ++ Config.MARKER_START ++ (str "\n" ++ content ++ str "\n")
      ++ Config.MARKER_END ++ Q = P ++ newBlock content ++ Q := by
    simp [newBlock, List.append_assoc]
  rw [hshape] at h
  exact h

/-- Witness for C2: a missing file updated twice with content `"hello"`. -/
theorem C2_update_idempotent_witness :
    ReadmeUpdater.update (some (ReadmeUpdater.update none (str "hello"))) (str "hello")
      = ReadmeUpdater.update none (str "hello") :=
  C2_update_idempotent none (str "hello") [] (str "\n")
    (by decide) (by decide) (by decide) (by decide)

/-! ### Python truthiness helpers (`x or y`) -/

/-- Python `a or b` where `a` is a possibly-missing string field: `None` and
the empty string are falsy. -/
def pyOrStr : Option Str → Str → Str
  | some s, y => if s = [] then y else s
  | none, y => y

/-- Python `a or b` where `a` is a possibly-missing integer field: `None` and
`0` are falsy. -/
def pyOrInt : Option Int → Int → Int
  | some n, y => if n = 0 then y else n
  | none, y => y

theorem pyOrStr_ne_nil (x : Option Str) (y : Str) (hy : y ≠ []) :
    pyOrStr x y ≠ [] := by
  match x with
  | none => exact hy
  | some s =>
    by_cases hs : s = []
    · simp [pyOrStr, hs, hy]
    · simp [pyOrStr, hs]

theorem pyOrStr_none (y : Str) : pyOrStr none y = y := rfl

/-! ### Data model (JSON records reaching `SponsorDataProcessor`) -/

/-- The `"user"` object inside a sponsor record (`user_id`, `name`,
`avatar`); each field may be absent/None. -/
structure AfdianUser where
  user_id : Option Str
  name : Option Str
  avatar : Option Str
deriving DecidableEq

/-- One element of the sponsor list returned by `query-sponsor`; the
`"user"` key may be absent (`sponsor.get("user", {})`). -/
structure SponsorRecord where
  user : Option AfdianUser
deriving DecidableEq

/-- One element of the order list returned by `query-order`: the fields the
processor reads (`user_id`, `user_name`, `avatar`, `last_pay_time`,
`create_time`), each possibly absent. -/
structure OrderRecord where
  user_id : Option Str
  user_name : Option Str
  avatar : Option Str
  last_pay_time : Option Int
  create_time : Option Int
deriving DecidableEq

/-- Value stored in `user_map`: `{"name": user.get("name") or "-",
"avatar": user.get("avatar") or ""}`. -/
structure UserInfo where
  name : Str
  avatar : Str
deriving DecidableEq

/-! ### Python dict model (string keys, insertion order preserved) -/

/-- Python `d[k] = v`: replace in place if the key exists, else append. -/
def dictInsert (m : List (Str × UserInfo)) (k : Str) (v : UserInfo) :
    List (Str × UserInfo) :=
  if m.any (fun p => decide (p.1 = k)) then
    m.map (fun p => if p.1 = k then (k, v) else p)
  else
    m ++ [(k, v)]

/-- Python `d.get(k)` on a dict with unique keys. -/
def dictLookup (m : List (Str × UserInfo)) (k : Str) : Option UserInfo :=
  (m.find? (fun p => decide (p.1 = k))).map Prod.snd

/-- `self.user_map.get(user_id, {})` where `user_id` may be None (never a
key, since only truthy ids are inserted). -/
def userLookup (m : List (Str × UserInfo)) (k : Option Str) : Option UserInfo :=
  match k with
  | none => none
  | some s => dictLookup m s

/-- The key/value pair a sponsor record contributes to `user_map`, or `none`
when it is skipped (`user` object absent, or `user_id` absent/empty). -/
def extractUser (sponsor : SponsorRecord) : Option (Str × UserInfo) :=
  match sponsor.user with
  | none => none
  | some u =>
    match u.user_id with
    | none => none
    | some uid =>
      if uid = [] then none
      else some (uid, { name := pyOrStr u.name (str "-"),
                        avatar := pyOrStr u.avatar [] })

/-- `SponsorDataProcessor._build_user_map`. -/
def build_user_map (sponsors : List SponsorRecord) : List (Str × UserInfo) :=
  sponsors.foldl
    (fun m s =>
      match extractUser s with
      | some kv => dictInsert m kv.1 kv.2
      | none => m)
    []

/-- The profile information of the last sponsor record carrying a given
(truthy) user id — the "last-seen record wins" reading of the spec. -/
def lastProfileFor (sponsors : List SponsorRecord) (k : Str) : Option UserInfo :=
  sponsors.foldl
    (fun acc s =>
      match extractUser s with
      | some kv => if kv.1 = k then some kv.2 else acc
      | none => acc)
    none

/-! ### `_safe_text`, timestamps, rendering -/

/-- `value.replace("\n", " ")` character map. -/
def nlToSpace (c : Char) : Char := if c = '\n' then ' ' else c

/-- `text.replace("|", "&#124;")`. -/
def replacePipe (t : Str) : Str :=
  t.flatMap (fun c => if c = '|' then str "&#124;" else [c])

/-- `SponsorDataProcessor._safe_text` restricted to string-or-None inputs
(the only values the program passes to it): replace newlines by spaces,
strip, escape the pipe, and substitute `"-"` for an empty result. -/
def safe_text (value : Option Str) : Str :=
  match value with
  | none => str "-"
  | some v =>
    if replacePipe (pyStrip (v.map nlToSpace)) = [] then str "-"
    else replacePipe (pyStrip (v.map nlToSpace))

/-- `SponsorDataProcessor._get_order_timestamp`:
`int(order.get("last_pay_time") or order.get("create_time") or 0)`, with the
fields already modelled as integers. -/
def get_order_timestamp (order : OrderRecord) : Int :=
  pyOrInt order.last_pay_time (pyOrInt order.create_time 0)

/-- Decimal digits of a natural number. -/
def natDigits (n : Nat) : Str := str (Nat.repr n)

/-- Two-digit zero-padded field of `strftime`. -/
def pad2 (n : Nat) : Str := if n < 10 then '0' :: natDigits n else natDigits n

/-- Civil-time rendering of `datetime.fromtimestamp(timestamp, UTC+8)
.strftime("%Y-%m-%d %H:%M:%S")`, for timestamps at or after
1970-01-01 00:00:00 Beijing time (all timestamps the claims touch).  Uses the
standard Gregorian days-from-epoch conversion. -/
def formatBeijing (timestamp : Int) : Str :=
  let total := (timestamp + 28800).toNat
  let days := total / 86400
  let secs := total % 86400
  let hh := secs / 3600
  let mm := secs % 3600 / 60
  let ss := secs % 60
  let z := days + 719468
  let era := z / 146097
  let doe := z % 146097
  let yoe := (doe - doe / 1460 + doe / 36524 - doe / 146096) / 365
  let doy := doe - (365 * yoe + yoe / 4 - yoe / 100)
  let mp := (5 * doy + 2) / 153
  let d := doy - (153 * mp + 2) / 5 + 1
  let m := if mp < 10 then mp + 3 else mp - 9
  let y := (if m ≤ 2 then yoe + era * 400 + 1 else yoe + era * 400)
  natDigits y ++ str "-" ++ pad2 m ++ str "-" ++ pad2 d ++ str " "
    ++ pad2 hh ++ str ":" ++ pad2 mm ++ str ":" ++ pad2 ss

/-- `SponsorDataProcessor._format_timestamp`: `"-"` for a falsy (zero)
timestamp, otherwise Beijing-time `"%Y-%m-%d %H:%M:%S"`. -/
def format_timestamp (timestamp : Int) : Str :=
  if timestamp = 0 then str "-" else formatBeijing timestamp

/-- `SponsorDataProcessor._generate_table_row` (its try-block, which cannot
fail on well-typed records). -/
def generate_table_row (user_map : List (Str × UserInfo)) (order : OrderRecord) :
    Str :=
  let user_info := userLookup user_map order.user_id
  let name := safe_text (some (pyOrStr (user_info.map (fun i => i.name))
    (pyOrStr order.user_name (str "-"))))
  let avatar := pyOrStr (user_info.map (fun i => i.avatar))
    (pyOrStr order.avatar [])
  let avatar_cell :=
    if avatar = [] then str "-"
    else str "<img src=\"" ++ avatar ++ str "\" width=\""
      ++ natDigits Config.AVATAR_SIZE ++ str "\">"
  str "| " ++ avatar_cell ++ str " | " ++ name ++ str " |"

/-- One entry of the JSON `sponsors` list. -/
structure SponsorItem where
  user_id : Option Str
  name : Str
  avatar : Str
  timestamp : Int
  time : Str
deriving DecidableEq

/-- `SponsorDataProcessor._generate_sponsor_item` (its try-block, which
cannot fail on well-typed records). -/
def generate_sponsor_item (user_map : List (Str × UserInfo)) (order : OrderRecord) :
    SponsorItem :=
  let user_info := userLookup user_map order.user_id
  let name := pyOrStr (user_info.map (fun i => i.name))
    (pyOrStr order.user_name (str "匿名"))
  let avatar := pyOrStr (user_info.map (fun i => i.avatar))
    (pyOrStr order.avatar [])
  let timestamp := get_order_timestamp order
  { user_id := order.user_id, name := name, avatar := avatar,
    timestamp := timestamp, time := format_timestamp timestamp }

/-- The descending-timestamp ordering used by
`sorted(self.orders, key=self._get_order_timestamp, reverse=True)`:
`a` may come before `b` iff `b`'s resolved timestamp is not larger. -/
def orderDesc (a b : OrderRecord) : Prop :=
  get_order_timestamp b ≤ get_order_timestamp a

instance : DecidableRel orderDesc :=
  fun a b => inferInstanceAs (Decidable (get_order_timestamp b ≤ get_order_timestamp a))

instance : IsTotal OrderRecord orderDesc :=
  ⟨fun a b => Int.le_total (get_order_timestamp b) (get_order_timestamp a)⟩

instance : IsTrans OrderRecord orderDesc :=
  ⟨fun _ _ _ hab hbc => le_trans hbc hab⟩

/-- Python `sorted(self.orders, key=self._get_order_timestamp, reverse=True)`:
a stable descending sort by resolved timestamp (insertion sort here;
extensionally equal to Python's stable sort with reversed comparisons). -/
def sortOrders (orders : List OrderRecord) : List OrderRecord :=
  List.insertionSort orderDesc orders

/-- The table rows appended by `SponsorDataProcessor.generate_markdown`
(one per sorted order; on well-typed records no row is skipped). -/
def table_rows (sponsors : List SponsorRecord) (orders : List OrderRecord) :
    List Str :=
  (sortOrders orders).map (generate_table_row (build_user_map sponsors))

/-- Header lines of the generated markdown. -/
def markdownHeader (update_time : Str) : List Str :=
  [str "## ❤️ 赞助者列表",
   [],
   str "> 更新时间: " ++ update_time ++ str " (UTC+8) 每4小时更新一次",
   [],
   str "| 头像 | 昵称 |",
   str "|------|------|"]

/-- `SponsorDataProcessor.generate_markdown` (the wall-clock update time is a
parameter of the model). -/
def generate_markdown (sponsors : List SponsorRecord) (orders : List OrderRecord)
    (update_time : Str) : Str :=
  List.intercalate (str "\n") (markdownHeader update_time ++ table_rows sponsors orders)

/-- The dictionary returned by `SponsorDataProcessor.generate_json_data`. -/
structure JsonData where
  update_time : Str
  update_timestamp : Int
  total_count : Nat
  sponsors : List SponsorItem
deriving DecidableEq

/-- `SponsorDataProcessor.generate_json_data` (wall-clock values are
parameters of the model). -/
def generate_json_data (sponsors : List SponsorRecord) (orders : List OrderRecord)
    (update_time : Str) (now_ts : Int) : JsonData :=
  let sponsors_list :=
    (sortOrders orders).map (generate_sponsor_item (build_user_map sponsors))
  { update_time := update_time, update_timestamp := now_ts,
    total_count := sponsors_list.length, sponsors := sponsors_list }

/-! ### Dict lemmas -/

theorem dictLookup_map_replace (k : Str) (v : UserInfo) :
    ∀ m : List (Str × UserInfo), m.any (fun p => decide (p.1 = k)) = true →
      dictLookup (m.map (fun p => if p.1 = k then (k, v) else p)) k = some v := by
  intro m
  induction m with
  | nil => intro h; simp at h
  | cons p m' ih =>
    intro hany
    by_cases hp : p.1 = k
    · rw [List.map_cons, if_pos hp, dictLookup]
      rw [List.find?_cons_of_pos _ (by simp)]
      rfl
    · rw [List.map_cons, if_neg hp, dictLookup]
      rw [List.find?_cons_of_neg _ (by simp [hp])]
      have hany' : m'.any (fun p => decide (p.1 = k)) = true := by
        rw [List.any_cons] at hany
        rcases Bool.or_eq_true_iff.mp hany with h1 | h2
        · exact absurd (of_decide_eq_true h1) hp
        · exact h2
      exact ih hany'

theorem dictLookup_insert_self (m : List (Str × UserInfo)) (k : Str) (v : UserInfo) :
    dictLookup (dictInsert m k v) k = some v := by
  rw [dictInsert]
  by_cases hany : m.any (fun p => decide (p.1 = k)) = true
  · rw [if_pos hany]
    exact dictLookup_map_replace k v m hany
  · rw [if_neg hany]
    have hnone : m.find? (fun p => decide (p.1 = k)) = none := by
      rw [List.find?_eq_none]
      intro x hx hxk
      exact hany (List.any_eq_true.mpr ⟨x, hx, hxk⟩)
    rw [dictLookup, List.find?_append, hnone]
    simp [List.find?]

theorem dictLookup_map_replace_ne (k k' : Str) (v : UserInfo) (hne : k' ≠ k) :
    ∀ m : List (Str × UserInfo),
      dictLookup (m.map (fun p => if p.1 = k then (k, v) else p)) k'
        = dictLookup m k' := by
  intro m
  induction m with
  | nil => rfl
  | cons p m' ih =>
    by_cases hp : p.1 = k
    · rw [List.map_cons, if_pos hp, dictLookup, dictLookup]
      rw [List.find?_cons_of_neg _ (by simp only [decide_eq_true_eq]; exact fun h => hne h.symm)]
      rw [List.find?_cons_of_neg _ (by simp only [decide_eq_true_eq, hp]; exact fun h => hne h.symm)]
      exact ih
    · rw [List.map_cons, if_neg hp, dictLookup, dictLookup]
      by_cases hpk : p.1 = k'
      · rw [List.find?_cons_of_pos _ (by simp [hpk]), List.find?_cons_of_pos _ (by simp [hpk])]
      · rw [List.find?_cons_of_neg _ (by simp [hpk]), List.find?_cons_of_neg _ (by simp [hpk])]
        exact ih

theorem dictLookup_insert_ne (m : List (Str × UserInfo)) (k k' : Str) (v : UserInfo)
    (hne : k' ≠ k) : dictLookup (dictInsert m k v) k' = dictLookup m k' := by
  rw [dictInsert]
  by_cases hany : m.any (fun p => decide (p.1 = k)) = true
  · rw [if_pos hany]
    exact dictLookup_map_replace_ne k k' v hne m
  · rw [if_neg hany]
    rw [dictLookup, List.find?_append]
    have hsingle : List.find? (fun p => decide (p.1 = k')) [(k, v)] = none := by
      rw [List.find?_cons_of_neg _ (by simp only [decide_eq_true_eq]; exact fun h => hne h.symm)]
      rfl
    rw [hsingle]
    simp [dictLookup]

theorem keys_dictInsert (m : List (Str × UserInfo)) (k : Str) (v : UserInfo)
    (h : (m.map Prod.fst).Nodup) : ((dictInsert m k v).map Prod.fst).Nodup := by
  rw [dictInsert]
  by_cases hany : m.any (fun p => decide (p.1 = k)) = true
  · rw [if_pos hany]
    have hkeys : (m.map (fun p => if p.1 = k then (k, v) else p)).map Prod.fst
        = m.map Prod.fst := by
      rw [List.map_map]
      apply List.map_congr_left
      intro p _
      by_cases hp : p.1 = k
      · simp [hp]
      · simp [hp]
    rw [hkeys]
    exact h
  · rw [if_neg hany]
    rw [List.map_append]
    have hnotin : k ∉ m.map Prod.fst := by
      intro hmem
      rcases List.mem_map.mp hmem with ⟨p, hp, hpk⟩
      exact hany (List.any_eq_true.mpr ⟨p, hp, by simp [hpk]⟩)
    have := List.Nodup.concat hnotin h
    rwa [List.concat_eq_append] at this

/-- The single-step function of `_build_user_map`'s loop. -/
def buildStep (m : List (Str × UserInfo)) (s : SponsorRecord) :
    List (Str × UserInfo) :=
  match extractUser s with
  | some kv => dictInsert m kv.1 kv.2
  | none => m

theorem build_user_map_eq_foldl (sponsors : List SponsorRecord) :
    build_user_map sponsors = sponsors.foldl buildStep [] := by
  rw [build_user_map]
  rfl

theorem keys_foldl_nodup :
    ∀ (sponsors : List SponsorRecord) (m : List (Str × UserInfo)),
      (m.map Prod.fst).Nodup → ((sponsors.foldl buildStep m).map Prod.fst).Nodup := by
  intro sponsors
  induction sponsors with
  | nil => intro m h; exact h
  | cons s rest ih =>
    intro m h
    rw [List.foldl_cons]
    apply ih
    rw [buildStep]
    match hx : extractUser s with
    | some kv => exact keys_dictInsert m kv.1 kv.2 h
    | none => exact h

theorem dictLookup_foldl :
    ∀ (sponsors : List SponsorRecord) (m : List (Str × UserInfo)) (k : Str),
      dictLookup (sponsors.foldl buildStep m) k
        = sponsors.foldl
            (fun acc s =>
              match extractUser s with
              | some kv => if kv.1 = k then some kv.2 else acc
              | none => acc)
            (dictLookup m k) := by
  intro sponsors
  induction sponsors with
  | nil => intro m k; rfl
  | cons s rest ih =>
    intro m k
    rw [List.foldl_cons, List.foldl_cons, ih]
    congr 1
    rw [buildStep]
    match hx : extractUser s with
    | none => rfl
    | some kv =>
      show dictLookup (dictInsert m kv.1 kv.2) k
        = if kv.1 = k then some kv.2 else dictLookup m k
      by_cases hk : kv.1 = k
      · rw [if_pos hk, ← hk]
        exact dictLookup_insert_self m kv.1 kv.2
      · rw [if_neg hk]
        exact dictLookup_insert_ne m kv.1 k kv.2 (fun h => hk h.symm)

/-- Claim C9: the lookup map built by `_build_user_map` has pairwise distinct
user ids, and looking up any id returns the fields contributed by the
last-seen sponsor record carrying that id (last-wins on duplicates). -/
theorem C9_build_user_map_last_wins (sponsors : List SponsorRecord) :
    ((build_user_map sponsors).map Prod.fst).Nodup ∧
      ∀ k : Str, dictLookup (build_user_map sponsors) k = lastProfileFor sponsors k := by
  constructor
  · rw [build_user_map_eq_foldl]
    exact keys_foldl_nodup sponsors [] (by simp)
  · intro k
    rw [build_user_map_eq_foldl, dictLookup_foldl]
    rfl

/-- Claim C10: `_safe_text` always returns a non-empty string containing
neither a newline nor a literal pipe character, for every input including
None. -/
theorem C10_safe_text_table_safe (value : Option Str) :
    safe_text value ≠ [] ∧ '\n' ∉ safe_text value ∧ '|' ∉ safe_text value := by
  match value with
  | none => exact ⟨by decide, by decide, by decide⟩
  | some v =>
    simp only [safe_text]
    by_cases hempty : replacePipe (pyStrip (v.map nlToSpace)) = []
    · rw [if_pos hempty]
      exact ⟨by decide, by decide, by decide⟩
    · rw [if_neg hempty]
      have hmem : ∀ c : Char, c ∈ replacePipe (pyStrip (v.map nlToSpace)) →
          c ≠ '\n' ∧ c ≠ '|' := by
        intro c hc
        rcases List.mem_flatMap.mp hc with ⟨a, ha, hca⟩
        have haorig : a ∈ v.map nlToSpace := by
          have h1 : a ∈ pyRstrip (v.map nlToSpace) := by
            have hsub := List.dropWhile_sublist (l := pyRstrip (v.map nlToSpace))
              (p := isPySpace)
            exact hsub.subset ha
          rw [pyRstrip] at h1
          have h2 : a ∈ (v.map nlToSpace).reverse := by
            have hsub := List.dropWhile_sublist (l := (v.map nlToSpace).reverse)
              (p := isPySpace)
            exact hsub.subset (List.mem_reverse.mp h1)
          exact List.mem_reverse.mp h2
        have hanl : a ≠ '\n' := by
          rcases List.mem_map.mp haorig with ⟨b, _, hb⟩
          intro hcontra
          rw [hcontra] at hb
          by_cases hbn : b = '\n'
          · rw [nlToSpace, if_pos hbn] at hb
            exact absurd hb (by decide)
          · rw [nlToSpace, if_neg hbn] at hb
            exact hbn hb
        by_cases hpipe : a = '|'
        · rw [if_pos hpipe] at hca
          constructor
          · intro hcn; rw [hcn] at hca; revert hca; decide
          · intro hcp; rw [hcp] at hca; revert hca; decide
        · rw [if_neg hpipe] at hca
          have hceq : c = a := List.mem_singleton.mp hca
          exact ⟨by rw [hceq]; exact hanl, by rw [hceq]; exact hpipe⟩
      refine ⟨hempty, ?_, ?_⟩
      · intro hmem'
        exact absurd rfl (hmem '\n' hmem').1
      · intro hmem'
        exact absurd rfl (hmem '|' hmem').2

/-- The first transaction of the C4 scenario: `profileId "u1"`, `paidAt 100`,
no embedded name or avatar. -/
def orderU1 : OrderRecord :=
  { user_id := some (str "u1"), user_name := none, avatar := none,
    last_pay_time := some 100, create_time := none }

/-- The second transaction of the C4 scenario: `profileId "u2"`, `paidAt 200`. -/
def orderU2 : OrderRecord :=
  { user_id := some (str "u2"), user_name := none, avatar := none,
    last_pay_time := some 200, create_time := none }

/-- The profile list of the C4 scenario: a single profile `id "u2"`,
`name "Bob"`. -/
def sponsorsBob : List SponsorRecord :=
  [⟨some ⟨some (str "u2"), some (str "Bob"), none⟩⟩]

/-- Claim C4, counterexample: in the rendered JSON document for the scenario,
the entry for the unmatched transaction "u1" is named with the code's
sentinel `"匿名"`, not `"-"` as the claim states. -/
theorem C4_counterexample :
    (generate_json_data sponsorsBob [orderU1, orderU2] (str "t") 0).sponsors.map
        (fun i => (i.name, i.timestamp))
      ≠ [(str "Bob", (200 : Int)), (str "-", (100 : Int))] := by
  decide

/-- Claim C4 (amended): for the scenario's transactions and profiles, the
rendered document's entry list is `[{name "Bob", timestamp 200},
{name "匿名", timestamp 100}]` — sorted descending by timestamp, with the
code's JSON name sentinel `"匿名"` for the unmatched transaction. -/
theorem C4_concrete_scenario :
    (generate_json_data sponsorsBob [orderU1, orderU2] (str "t") 0).sponsors.map
        (fun i => (i.name, i.timestamp))
      = [(str "Bob", (200 : Int)), (str "匿名", (100 : Int))] := by
  decide

/-- Claim C5, counterexample: a transaction whose `profileId` has no matching
profile and no embedded avatar gets the empty string as `avatarURL` — the
claimed "never empty" fails for the avatar. -/
theorem C5_counterexample :
    (generate_sponsor_item [] orderU1).avatar = [] := by
  decide

/-- Claim C5 (amended): for every transaction whose `profileId` has no
matching profile, the JSON entry's name comes from the transaction's own
`user_name` with sentinel `"匿名"` — hence is never empty — and its avatar
comes from the transaction's own `avatar` field with the empty string as
sentinel (so the avatar may be empty, but is never missing). -/
theorem C5_fallback_resolution (m : List (Str × UserInfo)) (o : OrderRecord)
    (h : userLookup m o.user_id = none) :
    (generate_sponsor_item m o).name = pyOrStr o.user_name (str "匿名") ∧
    (generate_sponsor_item m o).name ≠ [] ∧
    (generate_sponsor_item m o).avatar = pyOrStr o.avatar [] := by
  have hname : (generate_sponsor_item m o).name = pyOrStr o.user_name (str "匿名") := by
    simp [generate_sponsor_item, h, pyOrStr_none]
  refine ⟨hname, ?_, ?_⟩
  · rw [hname]
    exact pyOrStr_ne_nil o.user_name (str "匿名") (by decide)
  · simp [generate_sponsor_item, h, pyOrStr_none]

/-- Witness for C5 at the concrete unmatched transaction `orderU1`. -/
theorem C5_fallback_resolution_witness :
    (generate_sponsor_item [] orderU1).name = pyOrStr orderU1.user_name (str "匿名") ∧
    (generate_sponsor_item [] orderU1).name ≠ [] ∧
    (generate_sponsor_item [] orderU1).avatar = pyOrStr orderU1.avatar [] :=
  C5_fallback_resolution [] orderU1 (by decide)

/-- Claim C8: with pairwise distinct resolved timestamps, both artifacts list
the entries in the order of the one shared sorted order list — the markdown
rows and the JSON sponsors are element-wise images of `sortOrders orders` —
that list is a permutation of the input, and its timestamps are strictly
descending. -/
theorem C8_ordering (sponsors : List SponsorRecord) (orders : List OrderRecord)
    (update_time : Str) (now_ts : Int)
    (hdist : orders.Pairwise
      (fun a b => get_order_timestamp a ≠ get_order_timestamp b)) :
    (generate_json_data sponsors orders update_time now_ts).sponsors
        = (sortOrders orders).map (generate_sponsor_item (build_user_map sponsors))
    ∧ table_rows sponsors orders
        = (sortOrders orders).map (generate_table_row (build_user_map sponsors))
    ∧ (sortOrders orders).Perm orders
    ∧ ((sortOrders orders).map get_order_timestamp).Pairwise (fun x y => x > y) := by
  refine ⟨rfl, rfl, List.perm_insertionSort orderDesc orders, ?_⟩
  have hsorted : (sortOrders orders).Pairwise orderDesc :=
    List.sorted_insertionSort orderDesc orders
  have hperm : (sortOrders orders).Perm orders :=
    List.perm_insertionSort orderDesc orders
  have hdist' : (sortOrders orders).Pairwise
      (fun a b => get_order_timestamp a ≠ get_order_timestamp b) := by
    refine (List.Perm.pairwise_iff ?_ hperm).mpr hdist
    exact fun hxy heq => hxy heq.symm
  have hlt : (sortOrders orders).Pairwise
      (fun a b => get_order_timestamp b < get_order_timestamp a) :=
    (hsorted.and hdist').imp
      (fun hab => lt_of_le_of_ne hab.1 (fun heq => hab.2 heq.symm))
  rw [List.pairwise_map]
  exact hlt

/-- Witness for C8 on the two-transaction scenario with distinct timestamps. -/
theorem C8_ordering_witness :
    (generate_json_data sponsorsBob [orderU1, orderU2] (str "t") 0).sponsors
        = (sortOrders [orderU1, orderU2]).map
            (generate_sponsor_item (build_user_map sponsorsBob))
    ∧ table_rows sponsorsBob [orderU1, orderU2]
        = (sortOrders [orderU1, orderU2]).map
            (generate_table_row (build_user_map sponsorsBob))
    ∧ (sortOrders [orderU1, orderU2]).Perm [orderU1, orderU2]
    ∧ ((sortOrders [orderU1, orderU2]).map get_order_timestamp).Pairwise
        (fun x y => x > y) :=
  C8_ordering sponsorsBob [orderU1, orderU2] (str "t") 0 (by decide)

/-! ### Retry backoff (`AfdianAPIClient._post_with_retry`) -/

/-- The wait computed after a failed attempt:
`(config.BACKOFF_BASE ** attempt) + random.random() * 0.5`, with the value of
`random.random()` passed in as `jitter`. -/
def backoff_wait (attempt : Nat) (jitter : ℚ) : ℚ :=
  Config.BACKOFF_BASE ^ attempt + jitter * (1 / 2)

/-- Expected wait after a failed attempt: `random.random()` is uniform on
`[0, 1)` with mean `1/2`, so the expectation of the jitter term is `1/4`. -/
def expected_backoff_wait (attempt : Nat) : ℚ := backoff_wait attempt (1 / 2)

/-- Claim C3, counterexample: the expected wait after attempt 2 fails is NOT
strictly greater than after attempt 1 fails (`0.8^2 + 0.25 = 0.89 <
0.8 + 0.25 = 1.05`), because `BACKOFF_BASE = 0.8 < 1`. -/
theorem C3_counterexample :
    ¬ expected_backoff_wait 1 < expected_backoff_wait 2 := by
  norm_num [expected_backoff_wait, backoff_wait, Config.BACKOFF_BASE]

/-- Claim C3 (amended): since `BACKOFF_BASE = 0.8 < 1`, the expected backoff
wait between consecutive failed attempts is strictly DEcreasing: for every
attempt `n` with `1 ≤ n < MAX_RETRIES`, the expected wait after attempt
`n + 1` fails is strictly smaller than after attempt `n` fails. -/
theorem C3_backoff_decreasing (n : Nat) (h1 : 1 ≤ n) (h2 : n < Config.MAX_RETRIES) :
    expected_backoff_wait (n + 1) < expected_backoff_wait n := by
  have h2' : n < 3 := h2
  interval_cases n
  · norm_num [expected_backoff_wait, backoff_wait, Config.BACKOFF_BASE]
  · norm_num [expected_backoff_wait, backoff_wait, Config.BACKOFF_BASE]

/-- Witness for C3 at attempt 1. -/
theorem C3_backoff_decreasing_witness :
    expected_backoff_wait 2 < expected_backoff_wait 1 :=
  C3_backoff_decreasing 1 (Nat.le_refl 1) (by decide)

/-! ### Pagination (`AfdianAPIClient.fetch_all_pages`) -/

/-- The fields of a successful `_fetch_page` payload that the pagination loop
reads: `data["data"]["list"]` (`none` models a present-but-not-a-list value)
and `data["data"]["total_page"]`. -/
structure PageData (α : Type) where
  list : Option (List α)
  total_page : Option Int

/-- The Python condition `total_page and page >= total_page` (`None` and `0`
are falsy). -/
def stopAtTotal (total_page : Option Int) (page : Nat) : Bool :=
  match total_page with
  | some tp => decide (tp ≠ 0) && decide ((page : Int) ≥ tp)
  | none => false

/-- The `while page <= config.MAX_PAGES` loop of `fetch_all_pages`, with the
remaining page budget as structural fuel (`fuel = MAX_PAGES - page + 1` at
entry).  `server page` is the outcome of `_fetch_page` for that page (`none` =
failure/rejected payload).  Returns the collected items together with the list
of pages actually requested. -/
def fetchLoop {α : Type} (server : Nat → Option (PageData α)) :
    Nat → Nat → List α × List Nat
  | 0, _ => ([], [])
  | fuel + 1, page =>
    match server page with
    | none => ([], [page])
    | some data =>
      match data.list with
      | none => ([], [page])
      | some items =>
        if stopAtTotal data.total_page page then (items, [page])
        else if items.isEmpty then (items, [page])
        else
          ((items ++ (fetchLoop server fuel (page + 1)).1),
           page :: (fetchLoop server fuel (page + 1)).2)

/-- `AfdianAPIClient.fetch_all_pages`: pages from 1 up to `MAX_PAGES`. -/
def fetch_all_pages {α : Type} (server : Nat → Option (PageData α)) :
    List α × List Nat :=
  fetchLoop server Config.MAX_PAGES 1

theorem fetchLoop_succ {α : Type} (server : Nat → Option (PageData α))
    (fuel page : Nat) :
    fetchLoop server (fuel + 1) page =
      match server page with
      | none => ([], [page])
      | some data =>
        match data.list with
        | none => ([], [page])
        | some items =>
          if stopAtTotal data.total_page page then (items, [page])
          else if items.isEmpty then (items, [page])
          else
            ((items ++ (fetchLoop server fuel (page + 1)).1),
             page :: (fetchLoop server fuel (page + 1)).2) := rfl

/-- Claim C7: when the successful pages 1..3 report `total_page = 3` with
non-empty item lists, `fetch_all_pages` requests exactly pages 1, 2, 3
(never page 4, whatever the server would answer) and returns the
concatenated items of those three pages. -/
theorem C7_pagination_termination (α : Type) (server : Nat → Option (PageData α))
    (l1 l2 l3 : List α)
    (h1 : server 1 = some ⟨some l1, some 3⟩)
    (h2 : server 2 = some ⟨some l2, some 3⟩)
    (h3 : server 3 = some ⟨some l3, some 3⟩)
    (hn1 : l1 ≠ []) (hn2 : l2 ≠ []) (hn3 : l3 ≠ []) :
    fetch_all_pages server = (l1 ++ l2 ++ l3, [1, 2, 3])
    ∧ 4 ∉ (fetch_all_pages server).2 := by
  have hemp1 : l1.isEmpty = false := by
    cases l1 with
    | nil => exact absurd rfl hn1
    | cons a t => rfl
  have hemp2 : l2.isEmpty = false := by
    cases l2 with
    | nil => exact absurd rfl hn2
    | cons a t => rfl
  have hrec3 : fetchLoop server 1998 3 = (l3, [3]) := by
    rw [show (1998 : Nat) = 1997 + 1 from rfl, fetchLoop_succ, h3]
    dsimp only
    rw [if_pos (by decide)]
  have hrec2 : fetchLoop server 1999 2 = (l2 ++ l3, [2, 3]) := by
    rw [show (1999 : Nat) = 1998 + 1 from rfl, fetchLoop_succ, h2]
    dsimp only
    rw [if_neg (by decide), if_neg (by simp [hemp2]), hrec3]
  have hstep : fetch_all_pages server = (l1 ++ l2 ++ l3, [1, 2, 3]) := by
    rw [fetch_all_pages, show Config.MAX_PAGES = 1999 + 1 from rfl, fetchLoop_succ, h1]
    dsimp only
    rw [if_neg (by decide), if_neg (by simp [hemp1]), hrec2]
    simp [List.append_assoc]
  refine ⟨hstep, ?_⟩
  rw [hstep]
  show 4 ∉ [1, 2, 3]
  decide

/-- A concrete three-page server for the C7 witness. -/
def server3 : Nat → Option (PageData Nat) :=
  fun p =>
    if p = 1 then some ⟨some [10], some 3⟩
    else if p = 2 then some ⟨some [20], some 3⟩
    else if p = 3 then some ⟨some [30], some 3⟩
    else none

/-- Witness for C7 on the concrete three-page server. -/
theorem C7_pagination_termination_witness :
    fetch_all_pages server3 = ([10, 20, 30], [1, 2, 3])
    ∧ 4 ∉ (fetch_all_pages server3).2 :=
  C7_pagination_termination Nat server3 [10] [20] [30] rfl rfl rfl
    (by decide) (by decide) (by decide)

/-! ### `JsonExporter.export` and `main` -/

/-- `JsonExporter.export`: performs the file write (its outcome is the
parameter); on failure it logs and re-raises the same exception
(`except Exception: ...; raise`). -/
def export_json (writeResult : Except Str Unit) : Except Str Unit :=
  match writeResult with
  | Except.ok _ => Except.ok ()
  | Except.error e => Except.error e

/-- How a run of `main` ends (it never raises: every step is wrapped in a
try/except or an early `return`). -/
inductive MainOutcome
  | missingCredentials
  | ordersFetchFailed
  | noOrders
  | completed (readmeOk : Bool) (jsonOk : Bool)
deriving DecidableEq

/-- The effectful context of one run of `main`: credentials, the outcomes of
the two fetches and of the two file writes, and the wall clock. -/
structure MainEnv where
  user_id : Str
  token : Str
  sponsorsResult : Except Str (List SponsorRecord)
  ordersResult : Except Str (List OrderRecord)
  readmeResult : Except Str Unit
  jsonWriteResult : Except Str Unit
  nowStr : Str
  nowEpoch : Int

/-- `main`: credential check, the two fetches (sponsor failure degrades to
`[]`, order failure or an empty order list aborts), markdown generation and
README update (failure caught and logged), JSON generation and export
(failure caught and logged).  The `Except` layer records any exception that
would escape `main` — by construction none does. -/
def main (env : MainEnv) : Except Str MainOutcome :=
  if env.user_id = [] ∨ env.token = [] then Except.ok MainOutcome.missingCredentials
  else
    let sponsors :=
      match env.sponsorsResult with
      | Except.ok s => s
      | Except.error _ => []
    match env.ordersResult with
    | Except.error _ => Except.ok MainOutcome.ordersFetchFailed
    | Except.ok orders =>
      if orders = [] then Except.ok MainOutcome.noOrders
      else
        let _markdown := generate_markdown sponsors orders env.nowStr
        let readmeOk :=
          match env.readmeResult with
          | Except.ok _ => true
          | Except.error _ => false
        let _json := generate_json_data sponsors orders env.nowStr env.nowEpoch
        let jsonOk :=
          match export_json env.jsonWriteResult with
          | Except.ok _ => true
          | Except.error _ => false
        Except.ok (MainOutcome.completed readmeOk jsonOk)

/-- A run in which writing the JSON file fails. -/
def envJsonFail : MainEnv :=
  { user_id := str "u", token := str "t",
    sponsorsResult := Except.ok [],
    ordersResult := Except.ok [orderU1],
    readmeResult := Except.ok (),
    jsonWriteResult := Except.error (str "disk full"),
    nowStr := str "now", nowEpoch := 0 }

/-- Claim C6, counterexample: when the JSON write fails, the exception is
re-raised by `JsonExporter.export` but caught and only logged by `main`: the
run completes normally (`Except.ok`), so the failure does NOT propagate out
of the run. -/
theorem C6_counterexample :
    main envJsonFail = Except.ok (MainOutcome.completed true false)
    ∧ export_json envJsonFail.jsonWriteResult = Except.error (str "disk full") :=
  ⟨rfl, rfl⟩

/-- Claim C6 (amended): an I/O failure of the JSON write propagates out of
`JsonExporter.export` (the `raise` re-raises it), but `main` catches it,
logs, and completes the run normally with the JSON artifact marked as not
written — the failure does not propagate out of the run. -/
theorem C6_json_export_failure (env : MainEnv) (e : Str)
    (hjson : env.jsonWriteResult = Except.error e)
    (huser : env.user_id ≠ []) (htoken : env.token ≠ [])
    (orders : List OrderRecord)
    (horders : env.ordersResult = Except.ok orders) (hne : orders ≠ []) :
    export_json env.jsonWriteResult = Except.error e
    ∧ ∃ readmeOk : Bool, main env = Except.ok (MainOutcome.completed readmeOk false) := by
  constructor
  · rw [hjson]
    rfl
  · refine ⟨(match env.readmeResult with
      | Except.ok _ => true
      | Except.error _ => false), ?_⟩
    rw [main]
    rw [if_neg (fun h => h.elim (fun h1 => huser h1) (fun h2 => htoken h2))]
    rw [horders]
    dsimp only
    rw [if_neg hne]
    rw [hjson]
    rfl

/-- Witness for C6 on the concrete failing-write run. -/
theorem C6_json_export_failure_witness :
    export_json envJsonFail.jsonWriteResult = Except.error (str "disk full")
    ∧ ∃ readmeOk : Bool,
        main envJsonFail = Except.ok (MainOutcome.completed readmeOk false) :=
  C6_json_export_failure envJsonFail (str "disk full") rfl (by decide) (by decide)
    [orderU1] rfl (by decide)

end Sponsor
